import Mathlib

/-!
Verification of the bandwidth-hero proxy core (`src/proxy.js`) against its
natural-language specification.

The JavaScript source is shallowly embedded below:

* byte buffers become `Bytes := List Nat`;
* the external compression libraries (`zlib`, `lzma-native`, `zstd-codec`)
  are parameters gathered in a `Codecs` structure, since their code is not
  part of this repository; the repository's own dispatch logic
  (`compressionMethods`, `decompress`) is translated faithfully;
* the recursive `makeCloudscraperRequest` retry/redirect logic becomes an
  explicit step function `bypassStep` on an `AttemptState`, driven by a list
  of origin events (`bypassRun`);
* the `proxy` request handler becomes a pure function from the inbound
  request and the origin's response to a `ProxyOutcome` recording, in
  program order, the side effects performed (origin fetch, decode,
  transport compression, header writes, final dispatch) and the response
  headers / status produced.
-/

/-- Raw byte payloads (`Buffer` in the source). -/
abbrev Bytes := List Nat

/-- A header mapping with case-insensitive keys (Node normalizes header
names to lower case; last write wins). -/
abbrev HeaderMap := List (String × String)

/-- ASCII lower-casing of one character (header names are ASCII tokens). -/
def lowerChar (c : Char) : Char :=
  if 65 ≤ c.toNat ∧ c.toNat ≤ 90 then Char.ofNat (c.toNat + 32) else c

/-- ASCII lower-casing of a header name, as Node applies to header names. -/
def lowerStr (s : String) : String :=
  ⟨s.data.map lowerChar⟩

/-- Case-insensitive header lookup, as Node's `headers[name]` /
`res.getHeader(name)` behave. -/
def hFind (hs : HeaderMap) (k : String) : Option String :=
  (hs.find? (fun p => lowerStr p.1 = lowerStr k)).map (fun p => p.2)

/-- `res.setHeader(k, v)`: replaces any previous value stored under the
case-insensitive name `k`. -/
def hSet (hs : HeaderMap) (k v : String) : HeaderMap :=
  (k, v) :: hs.filter (fun p => lowerStr p.1 ≠ lowerStr k)

/-- `needle` occurs as a contiguous run inside `hay`
(JavaScript `String.prototype.includes`). -/
def occursInChars (needle hay : List Char) : Bool :=
  match hay with
  | [] => needle.isEmpty
  | _ :: t => needle.isPrefixOf hay || occursInChars needle t

/-- `hay.includes(needle)` from the source's Accept-Encoding checks. -/
def strContains (hay needle : String) : Bool :=
  occursInChars needle.data hay.data

/-- The external compression libraries used by `proxy.js`, taken as
parameters: `zlib.gzipSync`, `zlib.brotliCompressSync`, `zlib.deflateSync`
(encoders) and `zlib.promises.gunzip` / `brotliDecompress` / `inflate`,
`lzma.decompress`, `ZstdCodec`'s `Simple.decompress` (decoders, which may
fail on corrupt input: `Except` with a message). Only the dispatch wiring
around them is repository code. -/
structure Codecs where
  gzipSync : Bytes → Bytes
  brotliCompressSync : Bytes → Bytes
  deflateSync : Bytes → Bytes
  gunzip : Bytes → Except String Bytes
  brotliDecompress : Bytes → Except String Bytes
  inflate : Bytes → Except String Bytes
  lzmaDecompress : Bytes → Except String Bytes
  zstdDecompress : Bytes → Except String Bytes

/-- `compressionMethods` (proxy.js lines 18-22): the string-keyed table of
client-side compression encoders; absent keys give `none` (JS
`undefined`). -/
def compressionMethods (c : Codecs) (enc : String) : Option (Bytes → Bytes) :=
  match enc with
  | "gzip" => some c.gzipSync
  | "br" => some c.brotliCompressSync
  | "deflate" => some c.deflateSync
  | _ => none

deriving instance DecidableEq for Except

/-- The JavaScript value `decompress` can resolve with. The six dispatch
branches and the unknown-tag default resolve with a byte payload; a tag
naming an `Object.prototype` member makes the truthiness guard pass and
calls the inherited member instead, whose result is a string, a boolean,
`undefined`, or a plain object (identified here by a tag). -/
inductive JsPayload where
  | buffer (b : Bytes)
  | str (s : String)
  | bool (b : Bool)
  | obj (tag : String)
  | undef
deriving Repr, DecidableEq

/-- Result of `decompress`: the value the returned promise settles with
(`Except.error` for a rejection or a synchronous throw) together with the
`console.warn` diagnostics emitted. -/
structure DecompressOut where
  result : Except String JsPayload
  warnings : List String
deriving Repr, DecidableEq

/-- The own entries of the `decompressors` object literal (proxy.js lines
26-46): the six supported schemes; `lzma` and `lzma2` both call
`lzma.decompress`. `none` when `encoding` is not an own key. -/
def decompressorsOwn (c : Codecs) (data : Bytes) (encoding : String) :
    Option (Except String JsPayload) :=
  match encoding with
  | "gzip" => some ((c.gunzip data).map .buffer)
  | "br" => some ((c.brotliDecompress data).map .buffer)
  | "deflate" => some ((c.inflate data).map .buffer)
  | "lzma" => some ((c.lzmaDecompress data).map .buffer)
  | "lzma2" => some ((c.lzmaDecompress data).map .buffer)
  | "zstd" => some ((c.zstdDecompress data).map .buffer)
  | _ => none

/-- When `encoding` is not an own key, the JS lookup
`decompressors[encoding]` continues along the prototype chain and finds the
`Object.prototype` members, all of which are truthy, so the guard
`if (decompressors[encoding])` passes and `decompressors[encoding]()` is
called with no arguments on the receiver `decompressors`. This gives the
outcome of that call: `__proto__` yields the (non-callable) prototype
object, so the call throws a TypeError; `__defineGetter__` and
`__defineSetter__` throw because their argument is not callable; the
remaining members return a value that is not the input payload — all
without emitting the unknown-encoding diagnostic. `none` for names not on
`Object.prototype`. -/
def protoMemberCall (encoding : String) : Option (Except String JsPayload) :=
  match encoding with
  | "__proto__" => some (.error "TypeError: decompressors[encoding] is not a function")
  | "constructor" => some (.ok (.obj "new Object"))
  | "toString" => some (.ok (.str "[object Object]"))
  | "toLocaleString" => some (.ok (.str "[object Object]"))
  | "valueOf" => some (.ok (.obj "decompressors"))
  | "hasOwnProperty" => some (.ok (.bool false))
  | "isPrototypeOf" => some (.ok (.bool false))
  | "propertyIsEnumerable" => some (.ok (.bool false))
  | "__defineGetter__" => some (.error "TypeError: Getter must be a function: undefined")
  | "__defineSetter__" => some (.error "TypeError: Setter must be a function: undefined")
  | "__lookupGetter__" => some (.ok .undef)
  | "__lookupSetter__" => some (.ok .undef)
  | _ => none

/-- The `Object.prototype` member names reachable through the
`decompressors[encoding]` lookup — exactly the tags `protoMemberCall`
handles. -/
def objectProtoKeys : List String :=
  ["__proto__", "constructor", "toString", "toLocaleString", "valueOf",
   "hasOwnProperty", "isPrototypeOf", "propertyIsEnumerable",
   "__defineGetter__", "__defineSetter__", "__lookupGetter__", "__lookupSetter__"]

/-- `decompress(data, encoding)` (proxy.js lines 25-54): looks `encoding`
up on the `decompressors` object literal — own keys first, then the
prototype chain (`protoMemberCall`) — and calls what it finds; only when
the lookup yields nothing (undefined, falsy) does it warn and return the
data unchanged. -/
def decompress (c : Codecs) (data : Bytes) (encoding : String) : DecompressOut :=
  match decompressorsOwn c data encoding with
  | some r => ⟨r, []⟩
  | none =>
      match protoMemberCall encoding with
      | some r => ⟨r, []⟩
      | none => ⟨.ok (.buffer data), ["Unknown content-encoding: " ++ encoding]⟩

/-! ## The bypass fetcher (`makeCloudscraperRequest`, proxy.js lines 91-170)

The recursive function carries `(config.url, retries, redirectCount)`; each
recursive call corresponds to one fetch attempt whose outcome is either a
transport error or a response. We model one attempt's outcome as a
`FetchOutcome` and the recursion as a step function consuming a list of
outcomes. -/

/-- `MAX_REDIRECTS` (proxy.js line 92). -/
def MAX_REDIRECTS : Nat := 5

/-- Outcome of one cloudscraper attempt: the callback's
`(error, response, body)` — either a transport-level error or a response
with status, headers and raw body. -/
inductive FetchOutcome where
  | transportError
  | response (status : Nat) (headers : HeaderMap) (body : Bytes)
deriving Repr, DecidableEq

/-- The mutable state of one bypass chain: current URL, remaining retry
budget, redirects followed so far. -/
structure AttemptState where
  url : String
  retries : Nat
  redirectCount : Nat
deriving Repr, DecidableEq

/-- Terminal errors of the bypass chain: `BypassExhausted` is
`'Cloudscraper Request Failed'`, `BlockedByOrigin` is
`'Cloudscraper Request Blocked by Cloudflare'`, `RedirectLoop` is
`'Too many redirects, aborting request.'`. -/
inductive BypassError where
  | BypassExhausted
  | BlockedByOrigin
  | RedirectLoop
deriving Repr, DecidableEq

/-- Terminal result of a bypass chain. -/
inductive BypassResult where
  | succeeded (headers : HeaderMap) (body : Bytes)
  | failed (e : BypassError)
deriving Repr, DecidableEq

/-- What one attempt's callback does next: schedule another attempt (with
the given backoff delay in milliseconds; 0 for an immediately-followed
redirect) or finish. -/
inductive StepResult where
  | next (delay : Nat) (s : AttemptState)
  | done (r : BypassResult)
deriving Repr, DecidableEq

/-- One transition of the bypass state machine, translated line by line
from the callback body (proxy.js lines 130-168):
transport error → retry after 1000 ms while budget remains, else
`BypassExhausted`; status 403 → retry after 2000 ms while budget remains,
else `BlockedByOrigin`; status 302 with a `location` header while
`redirectCount < MAX_REDIRECTS` → follow it; otherwise any response
arriving with `redirectCount ≥ MAX_REDIRECTS` → `RedirectLoop`; otherwise
succeed with the response's headers and body. -/
def bypassStep (s : AttemptState) (ev : FetchOutcome) : StepResult :=
  match ev with
  | .transportError =>
      if 0 < s.retries then
        .next 1000 { url := s.url, retries := s.retries - 1, redirectCount := s.redirectCount }
      else
        .done (.failed .BypassExhausted)
  | .response status headers body =>
      if status = 403 then
        if 0 < s.retries then
          .next 2000 { url := s.url, retries := s.retries - 1, redirectCount := s.redirectCount }
        else
          .done (.failed .BlockedByOrigin)
      else
        -- `response.headers.location` is read only under the 302 guard; a
        -- missing header gives JS `undefined` and an empty string is falsy,
        -- so both fall through to the checks below.
        let redirectUrl :=
          if status = 302 ∧ s.redirectCount < MAX_REDIRECTS then
            (hFind headers "location").getD ""
          else ""
        if redirectUrl ≠ "" then
          .next 0 { url := redirectUrl, retries := s.retries, redirectCount := s.redirectCount + 1 }
        else if MAX_REDIRECTS ≤ s.redirectCount then
          .done (.failed .RedirectLoop)
        else
          .done (.succeeded headers body)

/-- Drive one bypass chain with a list of per-attempt outcomes; `none`
means the supplied outcomes ran out while the machine was still scheduling
further attempts. -/
def bypassRun (s : AttemptState) (evs : List FetchOutcome) : Option BypassResult :=
  match evs with
  | [] => none
  | ev :: rest =>
      match bypassStep s ev with
      | .done r => some r
      | .next _ s2 => bypassRun s2 rest

/-- `makeCloudscraperRequest(config)` starts with `retries = 3`,
`redirectCount = 0` (proxy.js line 91). -/
def initState (url : String) : AttemptState :=
  { url := url, retries := 3, redirectCount := 0 }

/-! ## The request handler (`proxy`, proxy.js lines 173-271)

`proxy` is embedded as a pure function. The origin's answer to the initial
fetch (line 197-201) and, when that answer has status 403/503, the bypass
fetcher's outcome (line 206) are inputs; the external compression-worthiness
heuristic `shouldCompress` (a separate module, out of scope per the spec) is
a function parameter. The outcome records the side effects in program order
together with the response headers and status this handler itself set. -/

/-- The inbound Express request as `proxy` reads it: `req.params.url`,
`req.url` and the inbound header map. -/
structure Req where
  urlParam : String
  reqUrl : String
  headers : HeaderMap

/-- The external `shouldCompress` heuristic (`./shouldCompress`, not part
of the core): interface only. It receives whatever JS value the decode
phase produced. -/
abbrev ShouldCompress := Req → JsPayload → Bool

/-- An origin response as the fetch path delivers it: status, header map,
raw body bytes. -/
structure OriginResponse where
  status : Nat
  headers : HeaderMap
  data : Bytes

/-- Observable side effects of one `proxy` invocation, in program order. -/
inductive Event where
  | originFetch
  | bypassFetch
  | decodeStep (enc : String)
  | transportCompress (enc : String)
  | copyHeadersStep
  | httpsRedirect
  | dispatchCompress
  | dispatchBypass
  | errorFallback
deriving Repr, DecidableEq

/-- What one `proxy` invocation did: its effect trace, the response headers
it set itself, the status/location when it issued the 301 upgrade, and the
provenance parameters it recorded. -/
structure ProxyOutcome where
  events : List Event
  resHeaders : HeaderMap
  statusCode : Option Nat
  location : Option String
  originType : Option String
  originSize : Option Nat
deriving Repr, DecidableEq

/-- proxy.js lines 210-211: `contentEncoding ? await decompress(data,
contentEncoding) : data`; the content-encoding tag selects the decode. -/
def pipelineDecode (c : Codecs) (origin : OriginResponse) : Except String JsPayload :=
  match hFind origin.headers "content-encoding" with
  | some enc => (decompress c origin.data enc).result
  | none => .ok (.buffer origin.data)

/-- The decode effect the pipeline performs: one `decodeStep` when a
content-encoding tag is present, nothing otherwise. -/
def decodeEvents (origin : OriginResponse) : List Event :=
  match hFind origin.headers "content-encoding" with
  | some enc => [Event.decodeStep enc]
  | none => []

/-- What the synchronous `zlib.*Sync` calls accept as input: Buffers pass
through; strings are UTF-8 encoded; any other value makes the call throw a
TypeError. -/
def zlibInput : JsPayload → Except String Bytes
  | .buffer b => .ok b
  | .str s => .ok (s.toUTF8.toList.map (fun b => b.toNat))
  | _ => .error "TypeError: unsupported input type"

/-- JS `x.length` as the pipeline reads it for the provenance parameter:
defined for Buffers and strings, `undefined` otherwise. -/
def jsLength : JsPayload → Option Nat
  | .buffer b => some b.length
  | .str s => some s.length
  | _ => none

/-- proxy.js lines 213-228: when `shouldCompress` approves the decoded
payload, re-encode it with the first of `br`, `gzip`, `deflate` contained
in the client's Accept-Encoding header (setting `Content-Encoding`
accordingly), or set `identity` and leave the payload alone. Returns the
(possibly re-encoded) payload, the header writes performed, and the effect
performed; `Except.error` when the chosen zlib call throws on a
non-Buffer/non-string payload (the throw lands in the catch block). -/
def transportStep (c : Codecs) (sc : ShouldCompress) (req : Req)
    (decompressedData : JsPayload) :
    Except String (JsPayload × HeaderMap × List Event) :=
  let acceptedEncodings := (hFind req.headers "accept-encoding").getD ""
  if sc req decompressedData then
    if strContains acceptedEncodings "br" then
      (zlibInput decompressedData).map (fun b =>
        (.buffer (c.brotliCompressSync b),
         hSet [] "Content-Encoding" "br", [Event.transportCompress "br"]))
    else if strContains acceptedEncodings "gzip" then
      (zlibInput decompressedData).map (fun b =>
        (.buffer (c.gzipSync b),
         hSet [] "Content-Encoding" "gzip", [Event.transportCompress "gzip"]))
    else if strContains acceptedEncodings "deflate" then
      (zlibInput decompressedData).map (fun b =>
        (.buffer (c.deflateSync b),
         hSet [] "Content-Encoding" "deflate", [Event.transportCompress "deflate"]))
    else
      .ok (decompressedData,
        hSet [] "Content-Encoding" "identity", [Event.transportCompress "identity"])
  else .ok (decompressedData, [], [])

/-- `transportStep` specialised to a byte payload, on which the zlib calls
always succeed (proxy.js lines 213-228 on the ordinary path). -/
def transportStepBuffer (c : Codecs) (sc : ShouldCompress) (req : Req)
    (b : Bytes) : JsPayload × HeaderMap × List Event :=
  let acceptedEncodings := (hFind req.headers "accept-encoding").getD ""
  if sc req (.buffer b) then
    if strContains acceptedEncodings "br" then
      (.buffer (c.brotliCompressSync b),
       hSet [] "Content-Encoding" "br", [Event.transportCompress "br"])
    else if strContains acceptedEncodings "gzip" then
      (.buffer (c.gzipSync b),
       hSet [] "Content-Encoding" "gzip", [Event.transportCompress "gzip"])
    else if strContains acceptedEncodings "deflate" then
      (.buffer (c.deflateSync b),
       hSet [] "Content-Encoding" "deflate", [Event.transportCompress "deflate"])
    else
      (.buffer b,
       hSet [] "Content-Encoding" "identity", [Event.transportCompress "identity"])
  else (.buffer b, [], [])

/-- The spec's statement of the transport-codec negotiation outcome: the
first scheme among `br`, `gzip`, `deflate` that the Accept-Encoding header
contains, else `identity`. The if-chain of proxy.js lines 216-227
(embedded in `transportStep`) realizes exactly this order. -/
def negotiatedScheme (accepted : String) : String :=
  if strContains accepted "br" then "br"
  else if strContains accepted "gzip" then "gzip"
  else if strContains accepted "deflate" then "deflate"
  else "identity"

/-- proxy.js lines 209-270, from `const { headers, data } = originResponse`
onward, with `evs` the effects already performed by the fetch phase.
A decode failure — and a TypeError thrown by the chosen zlib call on a
non-byte payload — jumps to the `catch` block (lines 261-270), which
invokes the external `redirect` fallback. `copyHeaders` (line 231) is an
external module; its invocation is recorded as an event, its header writes
are not modeled. -/
def proxyCore (c : Codecs) (sc : ShouldCompress) (req : Req)
    (origin : OriginResponse) (evs : List Event) : ProxyOutcome :=
  match pipelineDecode c origin with
  | .error _ =>
      { events := evs ++ decodeEvents origin ++ [.errorFallback], resHeaders := [],
        statusCode := none, location := none, originType := none, originSize := none }
  | .ok decompressedData =>
      match transportStep c sc req decompressedData with
      | .error _ =>
          { events := evs ++ decodeEvents origin ++ [.errorFallback], resHeaders := [],
            statusCode := none, location := none, originType := none, originSize := none }
      | .ok t =>
          let data1 := t.1
          let res1 := t.2.1
          let evs := evs ++ decodeEvents origin ++ t.2.2 ++ [Event.copyHeadersStep]
          if hFind req.headers "x-forwarded-proto" ≠ some "https" then
            { events := evs ++ [.httpsRedirect],
              resHeaders := hSet res1 "Strict-Transport-Security"
                "max-age=63072000; includeSubDomains; preload",
              statusCode := some 301,
              location := some ("https://" ++ (hFind req.headers "host").getD "undefined" ++ req.reqUrl),
              originType := none, originSize := none }
          else
            let res2 := hSet res1 "Content-Security-Policy"
              "default-src \x27self\x27; img-src *; media-src *; script-src \x27none\x27; object-src \x27none\x27;"
            let res3 := hSet res2 "X-Proxy" "Cloudflare Worker"
            let res4 := hSet res3 "Access-Control-Allow-Origin" "*"
            let res5 := hSet res4 "content-encoding" "identity"
            { events := evs ++ [if sc req data1 then Event.dispatchCompress else Event.dispatchBypass],
              resHeaders := res5,
              statusCode := none,
              location := none,
              originType := some ((hFind origin.headers "content-type").getD ""),
              originSize := jsLength data1 }

/-- `proxy(req, res)` (proxy.js lines 173-271) given that the initial fetch
resolved with `first`. When `first.status` is 403 or 503 the handler falls
back to `makeCloudscraperRequest` (line 206), whose outcome `bypassRes` is
an input: a rejection there lands in the `catch` block as well. -/
def proxy (c : Codecs) (sc : ShouldCompress) (req : Req)
    (first : OriginResponse) (bypassRes : Except BypassError OriginResponse) : ProxyOutcome :=
  if first.status = 403 ∨ first.status = 503 then
    match bypassRes with
    | .ok r => proxyCore c sc req r [.originFetch, .bypassFetch]
    | .error _ =>
        { events := [.originFetch, .bypassFetch, .errorFallback], resHeaders := [],
          statusCode := none, location := none, originType := none, originSize := none }
  else
    proxyCore c sc req first [.originFetch]

/-! ## Concrete instances used to evaluate the model

The external libraries are instantiated with trivial codecs satisfying the
round-trip contract (for witnesses), and with a failing gunzip (to exercise
the decode-error path). -/

/-- Trivial codec family: every encoder and decoder is the identity; all
decoders succeed. Satisfies the round-trip contract definitionally. -/
def idCodecs : Codecs where
  gzipSync := fun b => b
  brotliCompressSync := fun b => b
  deflateSync := fun b => b
  gunzip := fun b => .ok b
  brotliDecompress := fun b => .ok b
  inflate := fun b => .ok b
  lzmaDecompress := fun b => .ok b
  zstdDecompress := fun b => .ok b

/-- Codec family whose gunzip rejects every input, modelling a corrupt
gzip payload (zlib's `incorrect header check`). -/
def badGunzipCodecs : Codecs where
  gzipSync := fun b => b
  brotliCompressSync := fun b => b
  deflateSync := fun b => b
  gunzip := fun _ => .error "incorrect header check"
  brotliDecompress := fun b => .ok b
  inflate := fun b => .ok b
  lzmaDecompress := fun b => .ok b
  zstdDecompress := fun b => .ok b

/-- A `shouldCompress` heuristic that always approves: every payload is
deemed compression-worthy. -/
def scAll : ShouldCompress := fun _ _ => true

/-- An inbound request without the `x-forwarded-proto: https` indicator
(arrived over an insecure channel), accepting br/gzip/deflate. -/
def reqNoProto : Req where
  urlParam := "http://o.example/img.png"
  reqUrl := "/?url=http%3A%2F%2Fo.example%2Fimg.png"
  headers := [("accept-encoding", "gzip, deflate, br"), ("host", "proxy.example")]

/-- An inbound request that did arrive over HTTPS and accepts only `br`. -/
def reqHttpsBr : Req where
  urlParam := "http://o.example/img.png"
  reqUrl := "/?url=http%3A%2F%2Fo.example%2Fimg.png"
  headers := [("accept-encoding", "br"), ("x-forwarded-proto", "https"),
              ("host", "proxy.example")]

/-- An origin response whose payload is gzip transport-encoded. -/
def originGz : OriginResponse where
  status := 200
  headers := [("content-encoding", "gzip"), ("content-type", "image/png")]
  data := [9, 9]

/-- An origin response with no transport encoding. -/
def originPlain : OriginResponse where
  status := 200
  headers := [("content-type", "image/png")]
  data := [1, 2, 3, 4]

/-- An origin response claiming gzip transport encoding whose payload the
gzip decoder rejects (corrupt payload). -/
def originCorruptGz : OriginResponse where
  status := 200
  headers := [("content-encoding", "gzip"), ("content-type", "image/png")]
  data := [0, 1]

/-! ## Helper lemmas -/

/-- Looking a header up right after setting it, under any casing of the
same name, yields the value set. -/
theorem hFind_hSet_of_lower_eq (hs : HeaderMap) (k v k2 : String)
    (h : lowerStr k = lowerStr k2) :
    hFind (hSet hs k v) k2 = some v := by
  unfold hFind hSet
  rw [List.find?_cons_of_pos]
  · rfl
  · simp [h]

/-- Looking a header up right after setting it yields the value set. -/
theorem hFind_hSet_self (hs : HeaderMap) (k v : String) :
    hFind (hSet hs k v) k = some v :=
  hFind_hSet_of_lower_eq hs k v k rfl

/-- The decode phase never records a dispatch effect. -/
theorem decodeEvents_dispatch_not_mem (origin : OriginResponse) :
    Event.dispatchCompress ∉ decodeEvents origin ∧
    Event.dispatchBypass ∉ decodeEvents origin := by
  unfold decodeEvents
  split <;> simp

/-- On a byte payload the zlib calls accept their input, so the transport
phase never throws and agrees with its byte-level specialisation. -/
theorem transportStep_buffer_spec (c : Codecs) (sc : ShouldCompress)
    (req : Req) (b : Bytes) :
    transportStep c sc req (JsPayload.buffer b) =
      Except.ok (transportStepBuffer c sc req b) := by
  simp only [transportStep, transportStepBuffer, zlibInput]
  split_ifs <;> rfl

/-- The transport-compression phase never records a dispatch effect. -/
theorem transportStep_dispatch_not_mem (c : Codecs) (sc : ShouldCompress)
    (req : Req) (b : Bytes) :
    Event.dispatchCompress ∉ (transportStepBuffer c sc req b).2.2 ∧
    Event.dispatchBypass ∉ (transportStepBuffer c sc req b).2.2 := by
  simp only [transportStepBuffer]
  split_ifs <;> simp

/-- When the payload is deemed compression-worthy, the transport phase
performs exactly the negotiated re-encoding. -/
theorem transportStep_event (c : Codecs) (sc : ShouldCompress) (req : Req)
    (b : Bytes) (h : sc req (JsPayload.buffer b) = true) :
    (transportStepBuffer c sc req b).2.2 =
      [Event.transportCompress (negotiatedScheme ((hFind req.headers "accept-encoding").getD ""))] := by
  simp only [transportStepBuffer, negotiatedScheme]
  split_ifs <;> simp_all

/-! ## C10 — the two LZMA tags share one decoder -/

/-- C10: for every byte payload, `decompress` with tag `lzma` and with tag
`lzma2` dispatch to the same LZMA decompression routine
(`lzma.decompress`) and return equal results. -/
theorem C10_lzma_tags_equal (c : Codecs) (data : Bytes) :
    decompress c data "lzma" = decompress c data "lzma2" := rfl

/-! ## C8 — what an unknown encoding tag really does -/

/-- C8 counterexample: the guard `if (decompressors[encoding])` consults
the prototype chain, so for the unknown tag `__proto__` the program raises
a TypeError (the claim says it never raises), and for `toString` it
resolves with the string `[object Object]` — not the input — without
emitting any diagnostic. -/
theorem C8_counterexample :
    (decompress idCodecs [1, 2, 3] "__proto__").result =
      Except.error "TypeError: decompressors[encoding] is not a function" ∧
    (decompress idCodecs [1, 2, 3] "toString").result =
      Except.ok (JsPayload.str "[object Object]") ∧
    (decompress idCodecs [1, 2, 3] "toString").warnings = [] := by
  decide

/-- C8 as amended: for every payload and every encoding tag that is
neither one of the six supported scheme keys nor an `Object.prototype`
member name, `decompress` returns the input bytes unchanged, emits one
diagnostic, and does not raise; a tag naming an `Object.prototype` member
instead calls the inherited member — in particular `__proto__` raises a
TypeError. (A missing tag never reaches `decompress`: proxy.js line 211
skips the decode.) -/
theorem C8_amended (c : Codecs) (data : Bytes) (enc : String)
    (h : enc ∉ (["gzip", "br", "deflate", "lzma", "lzma2", "zstd"] ++ objectProtoKeys)) :
    decompress c data enc =
      { result := .ok (.buffer data),
        warnings := ["Unknown content-encoding: " ++ enc] } ∧
    (decompress c data "__proto__").result =
      Except.error "TypeError: decompressors[encoding] is not a function" := by
  have h1 : decompressorsOwn c data enc = none := by
    unfold decompressorsOwn
    split <;> simp_all [objectProtoKeys]
  have h2 : protoMemberCall enc = none := by
    unfold protoMemberCall
    split <;> simp_all [objectProtoKeys]
  refine ⟨?_, rfl⟩
  unfold decompress
  rw [h1, h2]

/-- Witness for C8 as amended at the spec's own example tag. -/
theorem C8_amended_witness :
    decompress idCodecs [1, 2, 3] "unknown-scheme" =
      { result := .ok (.buffer [1, 2, 3]),
        warnings := ["Unknown content-encoding: " ++ "unknown-scheme"] } ∧
    (decompress idCodecs [1, 2, 3] "__proto__").result =
      Except.error "TypeError: decompressors[encoding] is not a function" :=
  C8_amended idCodecs [1, 2, 3] "unknown-scheme" (by decide)

/-! ## C7 — encode/decode round-trip for the shared schemes -/

/-- C7: assuming the external libraries meet their round-trip contract,
every scheme supported by both the encode table (`compressionMethods`) and
the decode dispatch (`decompress`) — that is, gzip, br and deflate —
satisfies `decode (encode data enc) enc = data`: the repository pairs each
encoder key with the matching decoder. -/
theorem C7_roundtrip (c : Codecs)
    (hgz : ∀ d, c.gunzip (c.gzipSync d) = .ok d)
    (hbr : ∀ d, c.brotliDecompress (c.brotliCompressSync d) = .ok d)
    (hdef : ∀ d, c.inflate (c.deflateSync d) = .ok d)
    (data : Bytes) (enc : String) (f : Bytes → Bytes)
    (henc : compressionMethods c enc = some f) :
    (decompress c (f data) enc).result = .ok (.buffer data) := by
  unfold compressionMethods at henc
  split at henc <;> simp_all [decompress, decompressorsOwn, Except.map]

/-- Witness for C7: the identity codecs meet the round-trip contract and
the gzip scheme round-trips a concrete payload. -/
theorem C7_roundtrip_witness :
    (decompress idCodecs (idCodecs.gzipSync [4, 5]) "gzip").result =
      .ok (.buffer [4, 5]) :=
  C7_roundtrip idCodecs (fun _ => rfl) (fun _ => rfl) (fun _ => rfl)
    [4, 5] "gzip" idCodecs.gzipSync rfl

/-- Every scheduled follow-up attempt of the bypass machine is either a
redirect follow (budget untouched, redirect count incremented, no backoff)
or a retry (budget decremented, redirect count untouched, backoff 1000 or
2000 ms). Shared shape lemma for the bypass-chain claims. -/
theorem bypassStep_next_cases (s s2 : AttemptState) (ev : FetchOutcome) (d : Nat)
    (h : bypassStep s ev = .next d s2) :
    (s2.retries = s.retries ∧ s2.redirectCount = s.redirectCount + 1 ∧ d = 0) ∨
    (s2.retries + 1 = s.retries ∧ s2.redirectCount = s.redirectCount ∧
      (d = 1000 ∨ d = 2000)) := by
  cases ev with
  | transportError =>
      simp only [bypassStep] at h
      by_cases h0 : 0 < s.retries
      · rw [if_pos h0] at h
        injection h with h1 h2
        subst h1; subst h2
        exact Or.inr ⟨by show s.retries - 1 + 1 = s.retries; omega, rfl, Or.inl rfl⟩
      · rw [if_neg h0] at h
        exact StepResult.noConfusion h
  | response status headers body =>
      simp only [bypassStep] at h
      by_cases h403 : status = 403
      · rw [if_pos h403] at h
        by_cases h0 : 0 < s.retries
        · rw [if_pos h0] at h
          injection h with h1 h2
          subst h1; subst h2
          exact Or.inr ⟨by show s.retries - 1 + 1 = s.retries; omega, rfl, Or.inr rfl⟩
        · rw [if_neg h0] at h
          exact StepResult.noConfusion h
      · rw [if_neg h403] at h
        by_cases hr : (if status = 302 ∧ s.redirectCount < MAX_REDIRECTS then
            (hFind headers "location").getD "" else "") ≠ ""
        · rw [if_pos hr] at h
          injection h with h1 h2
          subst h1; subst h2
          exact Or.inl ⟨rfl, rfl, rfl⟩
        · rw [if_neg hr] at h
          split at h <;> exact StepResult.noConfusion h

/-! ## C9 — redirect count and retry budget are consumed independently -/

/-- C9: in every state of a bypass chain, a followed redirect leaves the
retry budget unchanged (and advances the redirect count by one), and a
retry after a transport error or a 403 leaves the redirect count unchanged
(and decrements the budget): the two counters are tracked independently. -/
theorem C9_counters_independent (s s2 : AttemptState) (ev : FetchOutcome) (d : Nat)
    (h : bypassStep s ev = .next d s2) :
    (s2.retries = s.retries ∧ s2.redirectCount = s.redirectCount + 1 ∧ d = 0) ∨
    (s2.retries + 1 = s.retries ∧ s2.redirectCount = s.redirectCount ∧
      (d = 1000 ∨ d = 2000)) :=
  bypassStep_next_cases s s2 ev d h

/-- Witness for C9: following the redirect of a concrete 302 at redirect
count 4 keeps the budget at 3 and advances the count to 5. -/
theorem C9_counters_independent_witness :
    (3 = 3 ∧ 5 = 4 + 1 ∧ 0 = 0) ∨
    (3 + 1 = 3 ∧ 5 = 4 ∧ (0 = 1000 ∨ 0 = 2000)) :=
  C9_counters_independent
    { url := "http://o.example/w9", retries := 3, redirectCount := 4 }
    { url := "http://o.example/w9next", retries := 3, redirectCount := 5 }
    (FetchOutcome.response 302 [("location", "http://o.example/w9next")] []) 0
    (by decide)

/-! ## C3 — retry budget semantics -/

/-- C3 counterexample: with the initial budget 3, a transport failure on
attempt 3 does NOT surface the terminal error — the machine schedules yet
another retry (`retries` falls from 1 to 0; after three failures the chain
is still attempting), and only a failure on attempt 4 surfaces
`BypassExhausted`. The claim predicted the terminal error on attempt 3. -/
theorem C3_counterexample :
    bypassRun (initState "http://o.example/a") (List.replicate 3 FetchOutcome.transportError) =
      none ∧
    bypassStep { url := "http://o.example/a", retries := 1, redirectCount := 0 }
        FetchOutcome.transportError =
      StepResult.next 1000 { url := "http://o.example/a", retries := 0, redirectCount := 0 } ∧
    bypassRun (initState "http://o.example/a")
        (List.replicate 3 (FetchOutcome.response 403 [] [])) = none ∧
    bypassRun (initState "http://o.example/a") (List.replicate 4 FetchOutcome.transportError) =
      some (BypassResult.failed BypassError.BypassExhausted) := by
  decide

/-- C3 as amended: the budget counts the retries that remain after an
attempt, so retryable failures on attempts 1..3 each yield exactly one
retry (fixed backoff 1000 ms for transport errors, 2000 ms for 403; budget
decremented; URL unchanged), and the failure on attempt 4 — when the budget
is exhausted — surfaces the branch's terminal error. -/
theorem C3_amended (s : AttemptState) (headers : HeaderMap) (body : Bytes) (u : String) :
    (0 < s.retries →
      bypassStep s FetchOutcome.transportError =
        StepResult.next 1000
          { url := s.url, retries := s.retries - 1, redirectCount := s.redirectCount } ∧
      bypassStep s (FetchOutcome.response 403 headers body) =
        StepResult.next 2000
          { url := s.url, retries := s.retries - 1, redirectCount := s.redirectCount }) ∧
    (s.retries = 0 →
      bypassStep s FetchOutcome.transportError =
        StepResult.done (BypassResult.failed BypassError.BypassExhausted) ∧
      bypassStep s (FetchOutcome.response 403 headers body) =
        StepResult.done (BypassResult.failed BypassError.BlockedByOrigin)) ∧
    (∀ j, j ≤ 3 →
      bypassRun (initState u) (List.replicate j FetchOutcome.transportError) = none) ∧
    bypassRun (initState u) (List.replicate 4 FetchOutcome.transportError) =
      some (BypassResult.failed BypassError.BypassExhausted) ∧
    bypassRun (initState u) (List.replicate 4 (FetchOutcome.response 403 headers body)) =
      some (BypassResult.failed BypassError.BlockedByOrigin) := by
  refine ⟨fun h0 => ⟨?_, ?_⟩, fun h0 => ⟨?_, ?_⟩, ?_, ?_, ?_⟩
  · simp [bypassStep, h0]
  · simp [bypassStep, h0]
  · simp [bypassStep, h0]
  · simp [bypassStep, h0]
  · intro j hj
    interval_cases j <;> simp [bypassRun, bypassStep, initState]
  · simp [bypassRun, bypassStep, initState]
  · simp [bypassRun, bypassStep, initState]

/-- Witness for C3 as amended: a transport failure and a 403 on the very
first attempt each schedule one retry with the fixed backoff. -/
theorem C3_amended_witness :
    bypassStep { url := "http://o.example/w3", retries := 3, redirectCount := 0 }
        FetchOutcome.transportError =
      StepResult.next 1000 { url := "http://o.example/w3", retries := 2, redirectCount := 0 } ∧
    bypassStep { url := "http://o.example/w3", retries := 3, redirectCount := 0 }
        (FetchOutcome.response 403 [] []) =
      StepResult.next 2000 { url := "http://o.example/w3", retries := 2, redirectCount := 0 } :=
  (C3_amended { url := "http://o.example/w3", retries := 3, redirectCount := 0 } [] []
      "http://o.example/w3").1 (by decide)

/-! ## C4 — redirect following and the RedirectLoop condition -/

/-- C4 counterexample: after five followed redirects the origin answers
200 — no sixth redirect would be followed — yet the chain fails with
`RedirectLoop`: the `redirectCount >= MAX_REDIRECTS` rejection fires on
every non-403 response once five redirects were followed, not only when a
sixth redirect arrives. This refutes the claim's `exactly when`. -/
theorem C4_counterexample :
    bypassRun (initState "http://o.example/c4")
      (List.replicate 5
          (FetchOutcome.response 302 [("location", "http://o.example/c4n")] []) ++
        [FetchOutcome.response 200 [("content-type", "image/png")] [7]]) =
      some (BypassResult.failed BypassError.RedirectLoop) := by
  decide

/-- C4 as amended: the redirect count is monotonically non-decreasing
along one bypass chain; a 302 carrying a non-empty Location header is
followed (URL replaced, count incremented, budget untouched) while the
count is below `MAX_REDIRECTS = 5`; once five redirects have been
followed, ANY non-403 response — redirect or not — fails the chain with
`RedirectLoop`; in particular six consecutive 302s fail with
`RedirectLoop` after the fifth redirect is followed. -/
theorem C4_amended (s s2 : AttemptState) (ev : FetchOutcome) (d : Nat)
    (status : Nat) (headers : HeaderMap) (body : Bytes) (loc : String) :
    (bypassStep s ev = .next d s2 → s.redirectCount ≤ s2.redirectCount) ∧
    (s.redirectCount < MAX_REDIRECTS → hFind headers "location" = some loc → loc ≠ "" →
      bypassStep s (FetchOutcome.response 302 headers body) =
        StepResult.next 0
          { url := loc, retries := s.retries, redirectCount := s.redirectCount + 1 }) ∧
    (MAX_REDIRECTS ≤ s.redirectCount → status ≠ 403 →
      bypassStep s (FetchOutcome.response status headers body) =
        StepResult.done (BypassResult.failed BypassError.RedirectLoop)) ∧
    bypassRun (initState "http://o.example/c4s")
      (List.replicate 6
          (FetchOutcome.response 302 [("location", "http://o.example/hop")] [])) =
      some (BypassResult.failed BypassError.RedirectLoop) := by
  refine ⟨?_, ?_, ?_, by decide⟩
  · intro h
    rcases bypassStep_next_cases s s2 ev d h with ⟨-, h2, -⟩ | ⟨-, h2, -⟩ <;> omega
  · intro hlt hloc hne
    simp [bypassStep, hlt, hloc, hne]
  · intro h5 h403
    simp only [bypassStep]
    rw [if_neg h403]
    have hc : ¬(status = 302 ∧ s.redirectCount < MAX_REDIRECTS) := by
      rintro ⟨-, hlt⟩
      omega
    rw [if_neg hc]
    simp [h5]

/-- Witness for C4 as amended: a 302 with a Location header at redirect
count 1 (budget 2) is followed: the URL is replaced and the count becomes
2 while the budget stays 2. -/
theorem C4_amended_witness :
    bypassStep { url := "http://o.example/w4", retries := 2, redirectCount := 1 }
        (FetchOutcome.response 302 [("location", "http://o.example/w4n")] []) =
      StepResult.next 0 { url := "http://o.example/w4n", retries := 2, redirectCount := 2 } :=
  (C4_amended { url := "http://o.example/w4", retries := 2, redirectCount := 1 }
      { url := "http://o.example/w4", retries := 2, redirectCount := 1 }
      FetchOutcome.transportError 0 200 [("location", "http://o.example/w4n")] []
      "http://o.example/w4n").2.1 (by decide) (by decide) (by decide)

/-! ## C5 — which responses reach `Succeeded` -/

/-- C5 counterexample: a 200 received after five followed redirects does
NOT transition to `Succeeded`; the chain fails with `RedirectLoop`. The
claim asserted success for a 200 at any redirect count. -/
theorem C5_counterexample :
    bypassRun (initState "http://o.example/c5")
      (List.replicate 5
          (FetchOutcome.response 302 [("location", "http://o.example/c5n")] []) ++
        [FetchOutcome.response 200 [("content-type", "text/plain")] [1, 2, 3]]) =
      some (BypassResult.failed BypassError.RedirectLoop) := by
  decide

/-- C5 as amended: a response whose status is neither 403 nor a followable
302 transitions to `Succeeded` carrying the response's headers and body —
but only while fewer than `MAX_REDIRECTS = 5` redirects have been
followed; at count ≥ 5 such a response fails the chain with
`RedirectLoop` instead. -/
theorem C5_amended (s : AttemptState) (status : Nat) (headers : HeaderMap) (body : Bytes)
    (h403 : status ≠ 403)
    (hnof : status = 302 → s.redirectCount < MAX_REDIRECTS →
      (hFind headers "location").getD "" = "") :
    bypassStep s (FetchOutcome.response status headers body) =
      if MAX_REDIRECTS ≤ s.redirectCount then
        StepResult.done (BypassResult.failed BypassError.RedirectLoop)
      else
        StepResult.done (BypassResult.succeeded headers body) := by
  simp only [bypassStep]
  rw [if_neg h403]
  have hr : ¬((if status = 302 ∧ s.redirectCount < MAX_REDIRECTS then
      (hFind headers "location").getD "" else "") ≠ "") := by
    split
    next hc => simp [hnof hc.1 hc.2]
    next => simp
  rw [if_neg hr]

/-- Witness for C5 as amended: a 200 at redirect count 0 succeeds with its
headers and body. -/
theorem C5_amended_witness :
    bypassStep { url := "http://o.example/w5", retries := 3, redirectCount := 0 }
        (FetchOutcome.response 200 [("content-type", "text/plain")] [1, 2]) =
      StepResult.done (BypassResult.succeeded [("content-type", "text/plain")] [1, 2]) :=
  C5_amended { url := "http://o.example/w5", retries := 3, redirectCount := 0 } 200
    [("content-type", "text/plain")] [1, 2] (by decide)
    (fun h => absurd h (by decide))

/-! ## C1 — HTTPS enforcement happens after the fetch, not before -/

/-- C1 counterexample: for a concrete insecure request (no
`x-forwarded-proto: https`) the handler does respond 301 with HSTS set,
but the origin fetch, the gzip transport decode and the brotli transport
compression have all already run — refuting `no origin fetch, decode, or
compression logic runs for that request`. -/
theorem C1_counterexample :
    (proxy idCodecs scAll reqNoProto originGz
        (Except.error BypassError.BypassExhausted)).statusCode = some 301 ∧
    hFind (proxy idCodecs scAll reqNoProto originGz
        (Except.error BypassError.BypassExhausted)).resHeaders "Strict-Transport-Security" =
      some "max-age=63072000; includeSubDomains; preload" ∧
    Event.originFetch ∈ (proxy idCodecs scAll reqNoProto originGz
        (Except.error BypassError.BypassExhausted)).events ∧
    Event.decodeStep "gzip" ∈ (proxy idCodecs scAll reqNoProto originGz
        (Except.error BypassError.BypassExhausted)).events ∧
    Event.transportCompress "br" ∈ (proxy idCodecs scAll reqNoProto originGz
        (Except.error BypassError.BypassExhausted)).events := by
  decide

/-- C1 as amended: when the pipeline reaches the HTTPS check (the fetch
delivered a response and the transport decode succeeded) on a request
lacking the secure-channel indicator, the handler responds 301 to the
HTTPS-qualified equivalent URL with the HSTS header set and skips the
remaining processing (no compress/bypass dispatch occurs) — but the origin
fetch, decode and transport-compression effects have already happened
before the check, ahead of the final `copyHeaders` and redirect. -/
theorem C1_amended (c : Codecs) (sc : ShouldCompress) (req : Req) (origin : OriginResponse)
    (evs : List Event) (d : Bytes)
    (hproto : hFind req.headers "x-forwarded-proto" ≠ some "https")
    (hdec : pipelineDecode c origin = Except.ok (JsPayload.buffer d)) :
    (proxyCore c sc req origin evs).statusCode = some 301 ∧
    hFind (proxyCore c sc req origin evs).resHeaders "Strict-Transport-Security" =
      some "max-age=63072000; includeSubDomains; preload" ∧
    (proxyCore c sc req origin evs).location =
      some ("https://" ++ (hFind req.headers "host").getD "undefined" ++ req.reqUrl) ∧
    ∃ mid, (proxyCore c sc req origin evs).events =
        evs ++ mid ++ [Event.copyHeadersStep, Event.httpsRedirect] ∧
      Event.dispatchCompress ∉ mid ∧ Event.dispatchBypass ∉ mid := by
  refine ⟨?_, ?_, ?_,
    ⟨decodeEvents origin ++ (transportStepBuffer c sc req d).2.2, ?_, ?_, ?_⟩⟩
  · simp only [proxyCore, hdec, transportStep_buffer_spec]
    rw [if_pos hproto]
  · simp only [proxyCore, hdec, transportStep_buffer_spec]
    rw [if_pos hproto]
    exact hFind_hSet_self _ _ _
  · simp only [proxyCore, hdec, transportStep_buffer_spec]
    rw [if_pos hproto]
  · simp only [proxyCore, hdec, transportStep_buffer_spec]
    rw [if_pos hproto]
    simp [List.append_assoc]
  · simp [List.mem_append, (decodeEvents_dispatch_not_mem origin).1,
      (transportStep_dispatch_not_mem c sc req d).1]
  · simp [List.mem_append, (decodeEvents_dispatch_not_mem origin).2,
      (transportStep_dispatch_not_mem c sc req d).2]

/-- Witness for C1 as amended, at a concrete insecure request. -/
theorem C1_amended_witness :
    (proxyCore idCodecs scAll reqNoProto originGz [Event.originFetch]).statusCode = some 301 ∧
    hFind (proxyCore idCodecs scAll reqNoProto originGz [Event.originFetch]).resHeaders
      "Strict-Transport-Security" = some "max-age=63072000; includeSubDomains; preload" := by
  have h := C1_amended idCodecs scAll reqNoProto originGz [Event.originFetch] [9, 9]
    (by decide) (by decide)
  exact ⟨h.1, h.2.1⟩

/-! ## C2 — the Content-Encoding header actually sent -/

/-- C2 counterexample: a compression-worthy payload for a client accepting
only `br` is brotli re-encoded mid-pipeline, yet the Content-Encoding
header accompanying the successful response is `identity`, not the
negotiated `br`: line 252 unconditionally overwrites the header before
dispatch. -/
theorem C2_counterexample :
    Event.transportCompress "br" ∈ (proxy idCodecs scAll reqHttpsBr originPlain
        (Except.error BypassError.BypassExhausted)).events ∧
    hFind (proxy idCodecs scAll reqHttpsBr originPlain
        (Except.error BypassError.BypassExhausted)).resHeaders "Content-Encoding" =
      some "identity" ∧
    hFind (proxy idCodecs scAll reqHttpsBr originPlain
        (Except.error BypassError.BypassExhausted)).resHeaders "Content-Encoding" ≠
      some "br" := by
  decide

/-- C2 as amended: on the success path, a compression-worthy payload is
re-encoded with the negotiated scheme (first of br, gzip, deflate the
client accepts, else identity) and `Content-Encoding` is set to it
mid-pipeline — but the handler then unconditionally overwrites
`Content-Encoding` to `identity` before dispatching, so `identity` is the
value accompanying the response regardless of the negotiation outcome. -/
theorem C2_amended (c : Codecs) (sc : ShouldCompress) (req : Req) (origin : OriginResponse)
    (evs : List Event) (d : Bytes)
    (hproto : hFind req.headers "x-forwarded-proto" = some "https")
    (hdec : pipelineDecode c origin = Except.ok (JsPayload.buffer d))
    (hsc : sc req (JsPayload.buffer d) = true) :
    Event.transportCompress
        (negotiatedScheme ((hFind req.headers "accept-encoding").getD "")) ∈
      (proxyCore c sc req origin evs).events ∧
    hFind (proxyCore c sc req origin evs).resHeaders "Content-Encoding" =
      some "identity" := by
  have hnp : ¬(hFind req.headers "x-forwarded-proto" ≠ some "https") := by
    simp [hproto]
  constructor
  · simp only [proxyCore, hdec, transportStep_buffer_spec]
    rw [if_neg hnp, transportStep_event c sc req d hsc]
    simp
  · simp only [proxyCore, hdec, transportStep_buffer_spec]
    rw [if_neg hnp]
    exact hFind_hSet_of_lower_eq _ _ _ _ (by decide)

/-- Witness for C2 as amended, at a concrete HTTPS request accepting only
brotli, with a compression-worthy plain payload. -/
theorem C2_amended_witness :
    Event.transportCompress
        (negotiatedScheme ((hFind reqHttpsBr.headers "accept-encoding").getD "")) ∈
      (proxyCore idCodecs scAll reqHttpsBr originPlain [Event.originFetch]).events ∧
    hFind (proxyCore idCodecs scAll reqHttpsBr originPlain [Event.originFetch]).resHeaders
      "Content-Encoding" = some "identity" :=
  C2_amended idCodecs scAll reqHttpsBr originPlain [Event.originFetch] [1, 2, 3, 4]
    (by decide) (by decide) rfl

/-! ## C6 — a decode error aborts the request -/

/-- C6 counterexample: a corrupt gzip payload (decoder rejects) does NOT
degrade to identity and continue; the pipeline jumps to the catch block,
invokes the external redirect fallback, and never dispatches the
payload. -/
theorem C6_counterexample :
    (proxy badGunzipCodecs scAll reqHttpsBr originCorruptGz
        (Except.error BypassError.BypassExhausted)).events =
      [Event.originFetch, Event.decodeStep "gzip", Event.errorFallback] ∧
    Event.dispatchCompress ∉ (proxy badGunzipCodecs scAll reqHttpsBr originCorruptGz
        (Except.error BypassError.BypassExhausted)).events ∧
    Event.dispatchBypass ∉ (proxy badGunzipCodecs scAll reqHttpsBr originCorruptGz
        (Except.error BypassError.BypassExhausted)).events ∧
    (proxy badGunzipCodecs scAll reqHttpsBr originCorruptGz
        (Except.error BypassError.BypassExhausted)).statusCode = none := by
  decide

/-- C6 as amended: when the payload carries a supported transport encoding
whose decode fails, the error propagates to the handler's catch block: the
request is handed to the external redirect fallback and no header writes,
compression, or dispatch happen — the pipeline does not degrade to
identity. Only unknown/missing encoding tags degrade to identity. -/
theorem C6_amended (c : Codecs) (sc : ShouldCompress) (req : Req) (origin : OriginResponse)
    (evs : List Event) (enc e : String)
    (henc : hFind origin.headers "content-encoding" = some enc)
    (herr : (decompress c origin.data enc).result = Except.error e) :
    (proxyCore c sc req origin evs).events =
      evs ++ [Event.decodeStep enc, Event.errorFallback] ∧
    (proxyCore c sc req origin evs).statusCode = none ∧
    (proxyCore c sc req origin evs).resHeaders = [] := by
  have hdec : pipelineDecode c origin = Except.error e := by
    simp [pipelineDecode, henc, herr]
  have hde : decodeEvents origin = [Event.decodeStep enc] := by
    simp [decodeEvents, henc]
  refine ⟨?_, ?_, ?_⟩ <;> simp [proxyCore, hdec, hde]

/-- Witness for C6 as amended: the corrupt gzip payload aborts into the
fallback on a concrete request. -/
theorem C6_amended_witness :
    (proxyCore badGunzipCodecs scAll reqHttpsBr originCorruptGz [Event.originFetch]).events =
      [Event.originFetch] ++ [Event.decodeStep "gzip", Event.errorFallback] ∧
    (proxyCore badGunzipCodecs scAll reqHttpsBr originCorruptGz
        [Event.originFetch]).statusCode = none ∧
    (proxyCore badGunzipCodecs scAll reqHttpsBr originCorruptGz
        [Event.originFetch]).resHeaders = [] :=
  C6_amended badGunzipCodecs scAll reqHttpsBr originCorruptGz [Event.originFetch]
    "gzip" "incorrect header check" (by decide) (by decide)
